import Mathlib

/-!
Shallow embedding of the dungeon-room core (Headers/ and Source/ of the
repository): the segmented-wall door model of DungeonRoom.cpp and
SegmentedWall.cpp, and the room-specification database of
DungeonRoomDatabase.cpp.

Modelling conventions:
- A static mesh (UStaticMesh pointer) is an opaque identity, modelled as Nat.
  The code compares meshes only by pointer identity (TArray::Contains).
- A wall segment (UStaticMeshComponent) is modelled as the mesh it currently
  displays, so a SegmentedWall is the list of meshes of its segments sorted by
  index, exactly the m_SegmentMeshes array of SegmentedWall.cpp.
- checkf assertions are modelled as typed errors (Except), one error
  constructor per distinct assertion, following the failure kinds the
  assertions correspond to.
- FMath::RandRange(0, Num-1) returns an arbitrary in-range index; the random
  choice is modelled by an oracle argument r : Nat reduced modulo the palette
  size, so that quantifying over r covers every possible outcome.
- int32 indices are modelled as Int (no index arithmetic in the code comes
  near the 2^31 overflow boundary, so no modular reduction is needed).
-/

/-- UStaticMesh pointers are compared only by identity; model them as Nat. -/
abbrev UStaticMesh : Type := Nat

/-- EDirection enum (Dungeon/Enums/Direction.h, not in src/): the four wall
directions named by the spec and used throughout DungeonRoom.cpp. -/
inductive EDirection : Type where
  | North : EDirection
  | South : EDirection
  | East : EDirection
  | West : EDirection
deriving DecidableEq

/-- USegmentedWall (SegmentedWall.cpp): its state is the array m_SegmentMeshes
of segment meshes sorted by index. -/
structure USegmentedWall : Type where
  m_SegmentMeshes : List UStaticMesh
deriving DecidableEq

/-- USegmentedWall::IsValidSegmentIndex: TArray::IsValidIndex, i.e.
Index >= 0 && Index < Num. -/
def USegmentedWall.IsValidSegmentIndex (w : USegmentedWall) (i : Int) : Bool :=
  decide (0 ≤ i) && decide (i < (w.m_SegmentMeshes.length : Int))

/-- USegmentedWall::GetSegment: asserts IsValidSegmentIndex, then returns the
segment (here: the mesh it displays, since HasDoorAtLocation reads the
segment only through GetStaticMesh). -/
def USegmentedWall.GetSegment (w : USegmentedWall) (i : Int) : Option UStaticMesh :=
  if w.IsValidSegmentIndex i then some (w.m_SegmentMeshes.getD i.toNat 0) else none

/-- ADungeonRoom::FWallLocation (DungeonRoom.h): a wall direction plus a
segment index (FNumberOfTiles wraps int32, modelled as Int). -/
structure FWallLocation : Type where
  WallDirection : EDirection
  SegmentIndex : Int
deriving DecidableEq

/-- ADungeonRoom's state relevant to the door model: the two mesh palettes and
the four walls (m_Root and the asset-registry fields play no part in the
door operations). -/
structure ADungeonRoom : Type where
  m_DoorMeshes : List UStaticMesh
  m_WallMeshes : List UStaticMesh
  m_NorthWall : USegmentedWall
  m_SouthWall : USegmentedWall
  m_EastWall : USegmentedWall
  m_WestWall : USegmentedWall
deriving DecidableEq

/-- ADungeonRoom::GetWall. The checkf(false) default branch is unreachable:
EDirection has exactly the four handled values. -/
def ADungeonRoom.GetWall (room : ADungeonRoom) : EDirection → USegmentedWall
  | .North => room.m_NorthWall
  | .South => room.m_SouthWall
  | .East => room.m_EastWall
  | .West => room.m_WestWall

/-- ADungeonRoom::IsValidWallLocation: delegates to the named wall's
IsValidSegmentIndex. -/
def ADungeonRoom.IsValidWallLocation (room : ADungeonRoom) (loc : FWallLocation) : Bool :=
  (room.GetWall loc.WallDirection).IsValidSegmentIndex loc.SegmentIndex

/-- ADungeonRoom::SetStaticMesh: GetWall(dir)->GetSegment(idx)->SetStaticMesh.
GetSegment's bounds assertion is subsumed by the validity checks of the two
callers (AddDoor, RemoveDoor), which run before this is reached; List.set is
a no-op out of range, so reachable behaviour is identical. -/
def ADungeonRoom.SetStaticMesh (room : ADungeonRoom) (loc : FWallLocation)
    (newMesh : UStaticMesh) : ADungeonRoom :=
  match loc.WallDirection with
  | .North => { room with m_NorthWall :=
      ⟨room.m_NorthWall.m_SegmentMeshes.set loc.SegmentIndex.toNat newMesh⟩ }
  | .South => { room with m_SouthWall :=
      ⟨room.m_SouthWall.m_SegmentMeshes.set loc.SegmentIndex.toNat newMesh⟩ }
  | .East => { room with m_EastWall :=
      ⟨room.m_EastWall.m_SegmentMeshes.set loc.SegmentIndex.toNat newMesh⟩ }
  | .West => { room with m_WestWall :=
      ⟨room.m_WestWall.m_SegmentMeshes.set loc.SegmentIndex.toNat newMesh⟩ }

/-- ADungeonRoom::GetRandomMesh: Meshes[RandRange(0, Num-1)], with the random
draw supplied as the oracle r (reduced modulo the palette size; callers
establish the palette is non-empty first). -/
def ADungeonRoom.GetRandomMesh (meshes : List UStaticMesh) (r : Nat) : UStaticMesh :=
  meshes.getD (r % meshes.length) 0

/-- Failure kinds of the room operations: one constructor per checkf
assertion of DungeonRoom.cpp, named after the spec's error kinds where the
spec lists one (the two palette assertions have no spec-listed kind). -/
inductive ERoomError : Type where
  | MissingDoorMeshes : ERoomError
  | MissingWallMeshes : ERoomError
  | InvalidLocation : ERoomError
  | DoorAlreadyPresent : ERoomError
  | NoDoorPresent : ERoomError
deriving DecidableEq

instance {ε α : Type} [DecidableEq ε] [DecidableEq α] : DecidableEq (Except ε α) := fun x y =>
  match x, y with
  | .error e, .error f =>
    if h : e = f then .isTrue (by rw [h]) else .isFalse (fun hh => h (by injection hh))
  | .error _, .ok _ => .isFalse (fun hh => Except.noConfusion hh)
  | .ok _, .error _ => .isFalse (fun hh => Except.noConfusion hh)
  | .ok a, .ok b =>
    if h : a = b then .isTrue (by rw [h]) else .isFalse (fun hh => h (by injection hh))

/-- The mesh GetSegment yields at a validated location: the segment mesh the
wall holds at that index (HasDoorAtLocation reads it via GetStaticMesh). -/
def ADungeonRoom.MeshAt (room : ADungeonRoom) (loc : FWallLocation) : UStaticMesh :=
  (room.GetWall loc.WallDirection).m_SegmentMeshes.getD loc.SegmentIndex.toNat 0

/-- ADungeonRoom::HasDoorAtLocation: asserts IsValidWallLocation, then reports
whether the mesh at the location is one of the door meshes
(m_DoorMeshes.Contains). -/
def ADungeonRoom.HasDoorAtLocation (room : ADungeonRoom) (loc : FWallLocation) :
    Except ERoomError Bool :=
  if room.IsValidWallLocation loc then
    .ok (room.m_DoorMeshes.contains (room.MeshAt loc))
  else .error .InvalidLocation

/-- ADungeonRoom::AddDoor: asserts the door palette non-empty, then location
validity, then absence of a door; finally sets a random door mesh. -/
def ADungeonRoom.AddDoor (room : ADungeonRoom) (loc : FWallLocation) (r : Nat) :
    Except ERoomError ADungeonRoom :=
  if room.m_DoorMeshes.length = 0 then .error .MissingDoorMeshes
  else if room.IsValidWallLocation loc = false then .error .InvalidLocation
  else if room.HasDoorAtLocation loc = .ok true then .error .DoorAlreadyPresent
  else .ok (room.SetStaticMesh loc (ADungeonRoom.GetRandomMesh room.m_DoorMeshes r))

/-- ADungeonRoom::RemoveDoor: asserts the wall palette non-empty, then location
validity, then presence of a door; finally sets a random wall mesh. -/
def ADungeonRoom.RemoveDoor (room : ADungeonRoom) (loc : FWallLocation) (r : Nat) :
    Except ERoomError ADungeonRoom :=
  if room.m_WallMeshes.length = 0 then .error .MissingWallMeshes
  else if room.IsValidWallLocation loc = false then .error .InvalidLocation
  else if room.HasDoorAtLocation loc = .ok false then .error .NoDoorPresent
  else .ok (room.SetStaticMesh loc (ADungeonRoom.GetRandomMesh room.m_WallMeshes r))

/-- ADungeonRoom::PostActorCreated: the engine runs this when an actor is
created (in particular during World->SpawnActor inside Spawn); it asserts
both palettes non-empty. -/
def ADungeonRoom.PostActorCreated (room : ADungeonRoom) : Except ERoomError Unit :=
  if room.m_DoorMeshes.length = 0 then .error .MissingDoorMeshes
  else if room.m_WallMeshes.length = 0 then .error .MissingWallMeshes
  else .ok ()

/-- The AddDoor loop of ADungeonRoom::Spawn (lines 57-60): apply AddDoor for
each requested door location in order, each with its own random oracle. -/
def ADungeonRoom.SpawnLoop (room : ADungeonRoom) :
    List (FWallLocation × Nat) → Except ERoomError ADungeonRoom
  | [] => .ok room
  | (loc, r) :: rest =>
    match room.AddDoor loc r with
    | .ok room2 => room2.SpawnLoop rest
    | .error e => .error e

/-- ADungeonRoom::Spawn: World->SpawnActor materializes the loaded template
(the engine running PostActorCreated on it), then AddDoor is applied to every
location of SpawnInfo.DoorLocations in order. Asset loading and scene
placement are external; the materialized template is the given room. -/
def ADungeonRoom.Spawn (template : ADungeonRoom)
    (doorLocations : List (FWallLocation × Nat)) : Except ERoomError ADungeonRoom :=
  match template.PostActorCreated with
  | .ok _ => template.SpawnLoop doorLocations
  | .error e => .error e

/-- Modelled from the spec: the create(width, length) constructor. The
constructor in src/ (ADungeonRoom::ADungeonRoom with CreateWall) creates the
four walls, but their segment counts and initial meshes are read out of the
blueprint asset by the engine (SegmentedWall::InitializeSegmentMeshes), which
is not code under src/. Per the spec, North/South have width segments,
East/West have length segments, and every segment starts Solid: all segments
carry the template's authored segment mesh solidMesh, and the Solid condition
is that this mesh is not a door mesh. -/
def RoomBoundary.create (width length : Nat)
    (doorMeshes wallMeshes : List UStaticMesh) (solidMesh : UStaticMesh) : ADungeonRoom :=
  { m_DoorMeshes := doorMeshes
    m_WallMeshes := wallMeshes
    m_NorthWall := ⟨List.replicate width solidMesh⟩
    m_SouthWall := ⟨List.replicate width solidMesh⟩
    m_EastWall := ⟨List.replicate length solidMesh⟩
    m_WestWall := ⟨List.replicate length solidMesh⟩ }

/-- Every wall location a room considers valid, enumerated wall by wall; an
observer used to state the 4x3 scenario (see mem_allWallLocations). -/
def allWallLocations (room : ADungeonRoom) : List FWallLocation :=
  ((List.range room.m_NorthWall.m_SegmentMeshes.length).map
      (fun (i : Nat) => FWallLocation.mk .North (i : Int))) ++
  ((List.range room.m_SouthWall.m_SegmentMeshes.length).map
      (fun (i : Nat) => FWallLocation.mk .South (i : Int))) ++
  ((List.range room.m_EastWall.m_SegmentMeshes.length).map
      (fun (i : Nat) => FWallLocation.mk .East (i : Int))) ++
  ((List.range room.m_WestWall.m_SegmentMeshes.length).map
      (fun (i : Nat) => FWallLocation.mk .West (i : Int)))

/-!
Room-specification database (DungeonRoomDatabase.cpp). The catalog scan
(FAssetSearcher) and the metadata analyzers (FDungeonRoomAssetAnalyzer) are
external collaborators: what they feed the database is, per asset, its
soft object path and its room specs. The database is therefore built from a
list of records carrying exactly those two fields, folded through
AddAssetToDatabase in discovery order, as InitializeDatabase does. TMap is
modelled as an association list whose FindOrAdd appends absent keys with a
value-initialized (zero / empty) value, matching Unreal TMap semantics as
used here (insertion order is never observed by the queries, only key lookup
is, so an association list is a faithful model).
-/

/-- EDungeonTheme enum (Dungeon/Enums/DungeonTheme.h, not in src/): an opaque
categorical tag with decidable equality. -/
abbrev EDungeonTheme : Type := Nat

/-- FSoftObjectPath: an opaque storage locator. -/
abbrev FSoftObjectPath : Type := String

/-- FNumberOfTiles (Dungeon/SizeTypes/NumberOfTiles.h, not in src/): a tile
count wrapping int32 (value-initialized to 0 by TMap::FindOrAdd). -/
abbrev FNumberOfTiles : Type := Int

/-- The Dimensions field of FDungeonRoomSpecs. -/
structure FRoomDimensions : Type where
  Width : FNumberOfTiles
  Length : FNumberOfTiles
deriving DecidableEq

/-- FDungeonRoomSpecs (Dungeon/Structs/DungeonRoomSpecs.h, not in src/):
theme plus dimensions; equality and hashing are by all fields, per the spec. -/
structure FDungeonRoomSpecs : Type where
  Theme : EDungeonTheme
  Dimensions : FRoomDimensions
deriving DecidableEq

/-- One discovered room-template record: what FDungeonRoomAssetAnalyzer
extracts from an FAssetData (GetRoomSpecs and GetSoftObjectPath). -/
structure FRoomAssetRecord : Type where
  Specs : FDungeonRoomSpecs
  Path : FSoftObjectPath
deriving DecidableEq

/-- First-match lookup in an association list (TMap::Find / FindChecked /
Contains; keys are unique by construction since insertion goes through
updateAssoc). -/
def lookupAssoc {K V : Type} [DecidableEq K] : List (K × V) → K → Option V
  | [], _ => none
  | (k, v) :: rest, key => if k = key then some v else lookupAssoc rest key

/-- TMap::FindOrAdd followed by an in-place update of the found slot: if the
key is present its value is updated by f, otherwise (key, f d) is appended,
d being the value-initialized default FindOrAdd inserts. -/
def updateAssoc {K V : Type} [DecidableEq K] (m : List (K × V)) (key : K) (d : V)
    (f : V → V) : List (K × V) :=
  match m with
  | [] => [(key, f d)]
  | (k, v) :: rest =>
    if k = key then (k, f v) :: rest else (k, v) :: updateAssoc rest key d f

/-- FDungeonRoomDatabase: the three maps of DungeonRoomDatabase.h. -/
structure FDungeonRoomDatabase : Type where
  m_PathsByRoomSpecs : List (FDungeonRoomSpecs × List FSoftObjectPath)
  m_MaxWidthByTheme : List (EDungeonTheme × FNumberOfTiles)
  m_MaxLengthByTheme : List (EDungeonTheme × FNumberOfTiles)
deriving DecidableEq

/-- The empty database the constructor starts from. -/
def FDungeonRoomDatabase.empty : FDungeonRoomDatabase := ⟨[], [], []⟩

/-- FDungeonRoomDatabase::UpdateAssetPathsMap: append the asset's path to
FindOrAdd(specs). -/
def FDungeonRoomDatabase.UpdateAssetPathsMap (db : FDungeonRoomDatabase)
    (a : FRoomAssetRecord) : FDungeonRoomDatabase :=
  { db with m_PathsByRoomSpecs :=
      updateAssoc db.m_PathsByRoomSpecs a.Specs [] (fun ps => ps ++ [a.Path]) }

/-- FDungeonRoomDatabase::UpdateMaxWidthAndLengthMaps: for the asset's theme,
raise the stored maximum width and maximum length independently when the
asset exceeds them (FindOrAdd starts an absent theme at 0). -/
def FDungeonRoomDatabase.UpdateMaxWidthAndLengthMaps (db : FDungeonRoomDatabase)
    (a : FRoomAssetRecord) : FDungeonRoomDatabase :=
  { db with
    m_MaxWidthByTheme := updateAssoc db.m_MaxWidthByTheme a.Specs.Theme 0
      (fun v => if v < a.Specs.Dimensions.Width then a.Specs.Dimensions.Width else v)
    m_MaxLengthByTheme := updateAssoc db.m_MaxLengthByTheme a.Specs.Theme 0
      (fun v => if v < a.Specs.Dimensions.Length then a.Specs.Dimensions.Length else v) }

/-- FDungeonRoomDatabase::AddAssetToDatabase. -/
def FDungeonRoomDatabase.AddAssetToDatabase (db : FDungeonRoomDatabase)
    (a : FRoomAssetRecord) : FDungeonRoomDatabase :=
  (db.UpdateAssetPathsMap a).UpdateMaxWidthAndLengthMaps a

/-- Failure kinds of the database, one per checkf assertion
(InitializeDatabase's emptiness check, DoesAssetExistWithSpecs's argument
check, and the FindChecked assertions of the three getters). -/
inductive EDatabaseError : Type where
  | EmptyCatalog : EDatabaseError
  | InvalidSpecification : EDatabaseError
  | SpecificationNotFound : EDatabaseError
  | ThemeNotFound : EDatabaseError
deriving DecidableEq

/-- FDungeonRoomDatabase::InitializeDatabase (the constructor): asserts the
discovered record list non-empty, then adds each record in order. -/
def FDungeonRoomDatabase.InitializeDatabase (records : List FRoomAssetRecord) :
    Except EDatabaseError FDungeonRoomDatabase :=
  if records.length = 0 then .error .EmptyCatalog
  else .ok (records.foldl FDungeonRoomDatabase.AddAssetToDatabase FDungeonRoomDatabase.empty)

/-- FDungeonRoomDatabase::GetAssetPaths: FindChecked on the paths map. -/
def FDungeonRoomDatabase.GetAssetPaths (db : FDungeonRoomDatabase)
    (specs : FDungeonRoomSpecs) : Except EDatabaseError (List FSoftObjectPath) :=
  match lookupAssoc db.m_PathsByRoomSpecs specs with
  | some ps => .ok ps
  | none => .error .SpecificationNotFound

/-- FDungeonRoomDatabase::GetMaxWidth: FindChecked on the max-width map. -/
def FDungeonRoomDatabase.GetMaxWidth (db : FDungeonRoomDatabase)
    (theme : EDungeonTheme) : Except EDatabaseError FNumberOfTiles :=
  match lookupAssoc db.m_MaxWidthByTheme theme with
  | some v => .ok v
  | none => .error .ThemeNotFound

/-- FDungeonRoomDatabase::GetMaxLength: FindChecked on the max-length map. -/
def FDungeonRoomDatabase.GetMaxLength (db : FDungeonRoomDatabase)
    (theme : EDungeonTheme) : Except EDatabaseError FNumberOfTiles :=
  match lookupAssoc db.m_MaxLengthByTheme theme with
  | some v => .ok v
  | none => .error .ThemeNotFound

/-- FDungeonRoomDatabase::DoesAssetExistWithSpecs: asserts the queried
dimensions positive, then reports key membership in the paths map. -/
def FDungeonRoomDatabase.DoesAssetExistWithSpecs (db : FDungeonRoomDatabase)
    (specs : FDungeonRoomSpecs) : Except EDatabaseError Bool :=
  if specs.Dimensions.Width ≤ 0 ∨ specs.Dimensions.Length ≤ 0 then
    .error .InvalidSpecification
  else .ok (lookupAssoc db.m_PathsByRoomSpecs specs).isSome

/-! Helper lemmas about lists. -/

theorem getD_set_self {α : Type} : ∀ (l : List α) (n : Nat) (a d : α),
    n < l.length → (l.set n a).getD n d = a
  | [], n, _, _, h => absurd h (by simp)
  | _ :: _, 0, _, _, _ => rfl
  | _ :: xs, n + 1, a, d, h => by
    simpa using getD_set_self xs n a d (by simpa using h)

theorem getD_set_ne {α : Type} : ∀ (l : List α) (n m : Nat) (a d : α),
    n ≠ m → (l.set n a).getD m d = l.getD m d
  | [], _, _, _, _, _ => rfl
  | _ :: _, 0, 0, _, _, h => absurd rfl h
  | _ :: _, 0, _ + 1, _, _, _ => rfl
  | _ :: _, _ + 1, 0, _, _, _ => rfl
  | _ :: xs, n + 1, m + 1, a, d, h => by
    simpa using getD_set_ne xs n m a d (fun hh => h (by rw [hh]))

theorem getD_replicate_lt {α : Type} : ∀ (n i : Nat) (a d : α),
    i < n → (List.replicate n a).getD i d = a
  | 0, i, _, _, h => absurd h (by simp)
  | _ + 1, 0, _, _, _ => rfl
  | n + 1, i + 1, a, d, h => by
    simpa [List.replicate] using getD_replicate_lt n i a d (by omega)

theorem getD_mem_of_lt {α : Type} : ∀ (l : List α) (n : Nat) (d : α),
    n < l.length → l.getD n d ∈ l
  | [], _, _, h => absurd h (by simp)
  | x :: xs, 0, _, _ => List.mem_cons_self x xs
  | _ :: xs, n + 1, d, h =>
    List.mem_cons_of_mem _ (getD_mem_of_lt xs n d (by simpa using h))

/-! Helper lemmas about the room operations. -/

theorem IsValidSegmentIndex_iff (w : USegmentedWall) (i : Int) :
    w.IsValidSegmentIndex i = true ↔ 0 ≤ i ∧ i < (w.m_SegmentMeshes.length : Int) := by
  simp [USegmentedWall.IsValidSegmentIndex]

theorem GetWall_SetStaticMesh (room : ADungeonRoom) (loc : FWallLocation)
    (mesh : UStaticMesh) (d : EDirection) :
    (room.SetStaticMesh loc mesh).GetWall d =
      if d = loc.WallDirection then
        ⟨(room.GetWall loc.WallDirection).m_SegmentMeshes.set loc.SegmentIndex.toNat mesh⟩
      else room.GetWall d := by
  cases loc with
  | mk ld idx => cases ld <;> cases d <;>
      simp [ADungeonRoom.SetStaticMesh, ADungeonRoom.GetWall]

theorem SetStaticMesh_m_DoorMeshes (room : ADungeonRoom) (loc : FWallLocation)
    (mesh : UStaticMesh) : (room.SetStaticMesh loc mesh).m_DoorMeshes = room.m_DoorMeshes := by
  cases loc with
  | mk ld idx => cases ld <;> rfl

theorem SetStaticMesh_m_WallMeshes (room : ADungeonRoom) (loc : FWallLocation)
    (mesh : UStaticMesh) : (room.SetStaticMesh loc mesh).m_WallMeshes = room.m_WallMeshes := by
  cases loc with
  | mk ld idx => cases ld <;> rfl

theorem IsValidWallLocation_SetStaticMesh (room : ADungeonRoom)
    (loc loc2 : FWallLocation) (mesh : UStaticMesh) :
    (room.SetStaticMesh loc mesh).IsValidWallLocation loc2 = room.IsValidWallLocation loc2 := by
  unfold ADungeonRoom.IsValidWallLocation
  rw [GetWall_SetStaticMesh]
  by_cases h : loc2.WallDirection = loc.WallDirection
  · simp only [h, if_pos rfl]
    simp [USegmentedWall.IsValidSegmentIndex, h]
  · rw [if_neg h]

theorem MeshAt_SetStaticMesh_self (room : ADungeonRoom) (loc : FWallLocation)
    (mesh : UStaticMesh) (h : room.IsValidWallLocation loc = true) :
    (room.SetStaticMesh loc mesh).MeshAt loc = mesh := by
  unfold ADungeonRoom.MeshAt
  rw [GetWall_SetStaticMesh, if_pos rfl]
  rw [ADungeonRoom.IsValidWallLocation, IsValidSegmentIndex_iff] at h
  exact getD_set_self _ _ _ _ (by omega)

theorem MeshAt_SetStaticMesh_ne (room : ADungeonRoom) (loc loc2 : FWallLocation)
    (mesh : UStaticMesh) (hv : room.IsValidWallLocation loc = true)
    (hv2 : room.IsValidWallLocation loc2 = true) (hne : loc ≠ loc2) :
    (room.SetStaticMesh loc mesh).MeshAt loc2 = room.MeshAt loc2 := by
  unfold ADungeonRoom.MeshAt
  rw [GetWall_SetStaticMesh]
  by_cases hd : loc2.WallDirection = loc.WallDirection
  · rw [if_pos hd, hd]
    have hidx : loc.SegmentIndex ≠ loc2.SegmentIndex := by
      intro hh
      exact hne (by cases loc; cases loc2; cases hd; cases hh; rfl)
    rw [ADungeonRoom.IsValidWallLocation, IsValidSegmentIndex_iff] at hv hv2
    exact getD_set_ne _ _ _ _ _ (by omega)
  · rw [if_neg hd]

theorem HasDoorAtLocation_valid (room : ADungeonRoom) (loc : FWallLocation)
    (h : room.IsValidWallLocation loc = true) :
    room.HasDoorAtLocation loc = .ok (room.m_DoorMeshes.contains (room.MeshAt loc)) := by
  rw [ADungeonRoom.HasDoorAtLocation, if_pos h]

theorem HasDoorAtLocation_invalid (room : ADungeonRoom) (loc : FWallLocation)
    (h : room.IsValidWallLocation loc = false) :
    room.HasDoorAtLocation loc = .error .InvalidLocation := by
  rw [ADungeonRoom.HasDoorAtLocation, if_neg (by simp [h])]

theorem HasDoorAtLocation_SetStaticMesh_ne (room : ADungeonRoom)
    (loc loc2 : FWallLocation) (mesh : UStaticMesh)
    (hv : room.IsValidWallLocation loc = true) (hne : loc ≠ loc2) :
    (room.SetStaticMesh loc mesh).HasDoorAtLocation loc2 = room.HasDoorAtLocation loc2 := by
  cases hv2 : room.IsValidWallLocation loc2 with
  | false =>
    rw [HasDoorAtLocation_invalid _ _ hv2,
      HasDoorAtLocation_invalid _ _ (by rw [IsValidWallLocation_SetStaticMesh]; exact hv2)]
  | true =>
    rw [HasDoorAtLocation_valid _ _ hv2,
      HasDoorAtLocation_valid _ _ (by rw [IsValidWallLocation_SetStaticMesh]; exact hv2),
      SetStaticMesh_m_DoorMeshes, MeshAt_SetStaticMesh_ne room loc loc2 mesh hv hv2 hne]

theorem GetRandomMesh_mem (meshes : List UStaticMesh) (r : Nat) (h : meshes ≠ []) :
    ADungeonRoom.GetRandomMesh meshes r ∈ meshes := by
  unfold ADungeonRoom.GetRandomMesh
  exact getD_mem_of_lt _ _ _ (Nat.mod_lt _ (List.length_pos.mpr h))

theorem contains_iff_mem (l : List UStaticMesh) (a : UStaticMesh) :
    l.contains a = true ↔ a ∈ l := by
  simp [List.contains]

theorem AddDoor_ok_iff (room : ADungeonRoom) (loc : FWallLocation) (r : Nat)
    (room' : ADungeonRoom) :
    room.AddDoor loc r = .ok room' ↔
      room.m_DoorMeshes ≠ [] ∧ room.IsValidWallLocation loc = true ∧
      room.HasDoorAtLocation loc = .ok false ∧
      room' = room.SetStaticMesh loc (ADungeonRoom.GetRandomMesh room.m_DoorMeshes r) := by
  unfold ADungeonRoom.AddDoor
  by_cases h0 : room.m_DoorMeshes.length = 0
  · rw [if_pos h0]
    simp [List.length_eq_zero.mp h0]
  · rw [if_neg h0]
    by_cases h1 : room.IsValidWallLocation loc = false
    · rw [if_pos h1]
      simp [h1]
    · have h1' : room.IsValidWallLocation loc = true := by
        cases h : room.IsValidWallLocation loc
        · exact absurd h h1
        · rfl
      rw [if_neg h1]
      rw [HasDoorAtLocation_valid _ _ h1']
      cases h2 : room.m_DoorMeshes.contains (room.MeshAt loc) with
      | true =>
        rw [if_pos rfl]
        constructor
        · intro hh
          exact Except.noConfusion hh
        · intro ⟨_, _, hc, _⟩
          injection hc with hc2
          exact Bool.noConfusion hc2
      | false =>
        rw [if_neg (fun hh => Bool.noConfusion (Except.ok.inj hh))]
        constructor
        · intro hh
          injection hh with hh
          exact ⟨fun he => h0 (by rw [he]; rfl), h1', rfl, hh.symm⟩
        · intro ⟨_, _, _, hh⟩
          rw [hh]

theorem RemoveDoor_ok_iff (room : ADungeonRoom) (loc : FWallLocation) (r : Nat)
    (room' : ADungeonRoom) :
    room.RemoveDoor loc r = .ok room' ↔
      room.m_WallMeshes ≠ [] ∧ room.IsValidWallLocation loc = true ∧
      room.HasDoorAtLocation loc = .ok true ∧
      room' = room.SetStaticMesh loc (ADungeonRoom.GetRandomMesh room.m_WallMeshes r) := by
  unfold ADungeonRoom.RemoveDoor
  by_cases h0 : room.m_WallMeshes.length = 0
  · rw [if_pos h0]
    simp [List.length_eq_zero.mp h0]
  · rw [if_neg h0]
    by_cases h1 : room.IsValidWallLocation loc = false
    · rw [if_pos h1]
      simp [h1]
    · have h1' : room.IsValidWallLocation loc = true := by
        cases h : room.IsValidWallLocation loc
        · exact absurd h h1
        · rfl
      rw [if_neg h1]
      rw [HasDoorAtLocation_valid _ _ h1']
      cases h2 : room.m_DoorMeshes.contains (room.MeshAt loc) with
      | false =>
        rw [if_pos rfl]
        constructor
        · intro hh
          exact Except.noConfusion hh
        · intro ⟨_, _, hc, _⟩
          injection hc with hc2
          exact Bool.noConfusion hc2
      | true =>
        rw [if_neg (fun hh => Bool.noConfusion (Except.ok.inj hh))]
        constructor
        · intro hh
          injection hh with hh
          exact ⟨fun he => h0 (by rw [he]; rfl), h1', rfl, hh.symm⟩
        · intro ⟨_, _, _, hh⟩
          rw [hh]

theorem AddDoor_error_cases (room : ADungeonRoom) (loc : FWallLocation) (r : Nat)
    (e : ERoomError) (he : room.AddDoor loc r = .error e) :
    e = .MissingDoorMeshes ∨ e = .InvalidLocation ∨ e = .DoorAlreadyPresent := by
  unfold ADungeonRoom.AddDoor at he
  by_cases h0 : room.m_DoorMeshes.length = 0
  · rw [if_pos h0] at he
    injection he with he
    exact Or.inl he.symm
  · rw [if_neg h0] at he
    by_cases h1 : room.IsValidWallLocation loc = false
    · rw [if_pos h1] at he
      injection he with he
      exact Or.inr (Or.inl he.symm)
    · rw [if_neg h1] at he
      by_cases h2 : room.HasDoorAtLocation loc = .ok true
      · rw [if_pos h2] at he
        injection he with he
        exact Or.inr (Or.inr he.symm)
      · rw [if_neg h2] at he
        exact Except.noConfusion he

theorem RemoveDoor_error_cases (room : ADungeonRoom) (loc : FWallLocation) (r : Nat)
    (e : ERoomError) (he : room.RemoveDoor loc r = .error e) :
    e = .MissingWallMeshes ∨ e = .InvalidLocation ∨ e = .NoDoorPresent := by
  unfold ADungeonRoom.RemoveDoor at he
  by_cases h0 : room.m_WallMeshes.length = 0
  · rw [if_pos h0] at he
    injection he with he
    exact Or.inl he.symm
  · rw [if_neg h0] at he
    by_cases h1 : room.IsValidWallLocation loc = false
    · rw [if_pos h1] at he
      injection he with he
      exact Or.inr (Or.inl he.symm)
    · rw [if_neg h1] at he
      by_cases h2 : room.HasDoorAtLocation loc = .ok false
      · rw [if_pos h2] at he
        injection he with he
        exact Or.inr (Or.inr he.symm)
      · rw [if_neg h2] at he
        exact Except.noConfusion he

theorem HasDoor_ok_valid (room : ADungeonRoom) (loc : FWallLocation) (b : Bool)
    (h : room.HasDoorAtLocation loc = .ok b) : room.IsValidWallLocation loc = true := by
  cases hv : room.IsValidWallLocation loc with
  | false =>
    rw [HasDoorAtLocation_invalid _ _ hv] at h
    exact Except.noConfusion h
  | true => rfl

theorem contains_eq_false_of_not_mem (l : List UStaticMesh) (a : UStaticMesh)
    (h : a ∉ l) : l.contains a = false := by
  cases hc : l.contains a with
  | false => rfl
  | true => exact absurd ((contains_iff_mem l a).mp hc) h

/-- After a successful door placement, the door is reported at the location. -/
theorem HasDoor_after_set_mem (room : ADungeonRoom) (loc : FWallLocation)
    (mesh : UStaticMesh) (hv : room.IsValidWallLocation loc = true)
    (hmem : mesh ∈ room.m_DoorMeshes) :
    (room.SetStaticMesh loc mesh).HasDoorAtLocation loc = .ok true := by
  rw [HasDoorAtLocation_valid _ _ (by rw [IsValidWallLocation_SetStaticMesh]; exact hv),
    SetStaticMesh_m_DoorMeshes, MeshAt_SetStaticMesh_self _ _ _ hv,
    (contains_iff_mem _ _).mpr hmem]

/-- After a successful door removal whose replacement mesh is not a door mesh,
no door is reported at the location. -/
theorem HasDoor_after_set_not_mem (room : ADungeonRoom) (loc : FWallLocation)
    (mesh : UStaticMesh) (hv : room.IsValidWallLocation loc = true)
    (hmem : mesh ∉ room.m_DoorMeshes) :
    (room.SetStaticMesh loc mesh).HasDoorAtLocation loc = .ok false := by
  rw [HasDoorAtLocation_valid _ _ (by rw [IsValidWallLocation_SetStaticMesh]; exact hv),
    SetStaticMesh_m_DoorMeshes, MeshAt_SetStaticMesh_self _ _ _ hv,
    contains_eq_false_of_not_mem _ _ hmem]

/-- Claim C1 counterexample: a room with an empty door palette makes AddDoor
fail at a valid, door-free location (with a failure kind the claim does not
list) instead of setting the segment to Door; and a room whose wall palette
shares its mesh with the door palette makes a successful RemoveDoor leave the
segment in the Door state instead of Solid. -/
theorem claim_C1_counterexample :
    ((⟨[], [3], ⟨[0, 0]⟩, ⟨[0, 0]⟩, ⟨[0]⟩, ⟨[0]⟩⟩ : ADungeonRoom).IsValidWallLocation
        ⟨.North, 0⟩ = true) ∧
    ((⟨[], [3], ⟨[0, 0]⟩, ⟨[0, 0]⟩, ⟨[0]⟩, ⟨[0]⟩⟩ : ADungeonRoom).HasDoorAtLocation
        ⟨.North, 0⟩ = .ok false) ∧
    ((⟨[], [3], ⟨[0, 0]⟩, ⟨[0, 0]⟩, ⟨[0]⟩, ⟨[0]⟩⟩ : ADungeonRoom).AddDoor
        ⟨.North, 0⟩ 0 = .error .MissingDoorMeshes) ∧
    ((⟨[4], [4], ⟨[4, 0]⟩, ⟨[0, 0]⟩, ⟨[0]⟩, ⟨[0]⟩⟩ : ADungeonRoom).RemoveDoor
        ⟨.North, 0⟩ 0 = .ok (⟨[4], [4], ⟨[4, 0]⟩, ⟨[0, 0]⟩, ⟨[0]⟩, ⟨[0]⟩⟩ : ADungeonRoom)) ∧
    ((⟨[4], [4], ⟨[4, 0]⟩, ⟨[0, 0]⟩, ⟨[0]⟩, ⟨[0]⟩⟩ : ADungeonRoom).HasDoorAtLocation
        ⟨.North, 0⟩ = .ok true) := by decide

/-- Claim C1 (amended): provided the door-mesh palette (for addDoor) and the
wall-mesh palette (for removeDoor) are non-empty, addDoor fails with
InvalidLocation when the location is invalid, with DoorAlreadyPresent when a
door is present, and otherwise sets the segment's state to Door; removeDoor
fails with InvalidLocation when the location is invalid, with NoDoorPresent
when no door is present, and otherwise replaces the segment with a wall-palette
mesh, which is the Solid state whenever the wall palette shares no mesh with
the door palette; under these preconditions these are the only failure
conditions of the two operations. -/
theorem claim_C1_amended (room : ADungeonRoom) (loc : FWallLocation) (r : Nat)
    (hdm : room.m_DoorMeshes ≠ []) (hwm : room.m_WallMeshes ≠ []) :
    ((room.IsValidWallLocation loc = false →
        room.AddDoor loc r = .error .InvalidLocation) ∧
     (room.HasDoorAtLocation loc = .ok true →
        room.AddDoor loc r = .error .DoorAlreadyPresent) ∧
     (room.HasDoorAtLocation loc = .ok false →
        ∃ room2, room.AddDoor loc r = .ok room2 ∧
          room2.HasDoorAtLocation loc = .ok true) ∧
     (∀ e, room.AddDoor loc r = .error e →
        e = .InvalidLocation ∨ e = .DoorAlreadyPresent)) ∧
    ((room.IsValidWallLocation loc = false →
        room.RemoveDoor loc r = .error .InvalidLocation) ∧
     (room.HasDoorAtLocation loc = .ok false →
        room.RemoveDoor loc r = .error .NoDoorPresent) ∧
     (room.HasDoorAtLocation loc = .ok true →
        ∃ room2, room.RemoveDoor loc r = .ok room2 ∧
          room2.MeshAt loc ∈ room.m_WallMeshes ∧
          ((∀ m ∈ room.m_WallMeshes, m ∉ room.m_DoorMeshes) →
            room2.HasDoorAtLocation loc = .ok false)) ∧
     (∀ e, room.RemoveDoor loc r = .error e →
        e = .InvalidLocation ∨ e = .NoDoorPresent)) := by
  have hdlen : ¬ room.m_DoorMeshes.length = 0 :=
    fun hh => hdm (List.length_eq_zero.mp hh)
  have hwlen : ¬ room.m_WallMeshes.length = 0 :=
    fun hh => hwm (List.length_eq_zero.mp hh)
  refine ⟨⟨?_, ?_, ?_, ?_⟩, ⟨?_, ?_, ?_, ?_⟩⟩
  · intro h
    rw [ADungeonRoom.AddDoor, if_neg hdlen, if_pos h]
  · intro h
    have hv := HasDoor_ok_valid _ _ _ h
    rw [ADungeonRoom.AddDoor, if_neg hdlen, if_neg (by rw [hv]; exact Bool.noConfusion),
      if_pos h]
  · intro h
    have hv := HasDoor_ok_valid _ _ _ h
    refine ⟨room.SetStaticMesh loc (ADungeonRoom.GetRandomMesh room.m_DoorMeshes r),
      (AddDoor_ok_iff _ _ _ _).mpr ⟨hdm, hv, h, rfl⟩, ?_⟩
    exact HasDoor_after_set_mem _ _ _ hv (GetRandomMesh_mem _ _ hdm)
  · intro e he
    rw [ADungeonRoom.AddDoor, if_neg hdlen] at he
    by_cases h1 : room.IsValidWallLocation loc = false
    · rw [if_pos h1] at he
      injection he with he
      exact Or.inl he.symm
    · rw [if_neg h1] at he
      by_cases h2 : room.HasDoorAtLocation loc = .ok true
      · rw [if_pos h2] at he
        injection he with he
        exact Or.inr he.symm
      · rw [if_neg h2] at he
        exact Except.noConfusion he
  · intro h
    rw [ADungeonRoom.RemoveDoor, if_neg hwlen, if_pos h]
  · intro h
    have hv := HasDoor_ok_valid _ _ _ h
    rw [ADungeonRoom.RemoveDoor, if_neg hwlen, if_neg (by rw [hv]; exact Bool.noConfusion),
      if_pos h]
  · intro h
    have hv := HasDoor_ok_valid _ _ _ h
    refine ⟨room.SetStaticMesh loc (ADungeonRoom.GetRandomMesh room.m_WallMeshes r),
      (RemoveDoor_ok_iff _ _ _ _).mpr ⟨hwm, hv, h, rfl⟩, ?_, ?_⟩
    · rw [MeshAt_SetStaticMesh_self _ _ _ hv]
      exact GetRandomMesh_mem _ _ hwm
    · intro hdisj
      exact HasDoor_after_set_not_mem _ _ _ hv
        (hdisj _ (GetRandomMesh_mem _ _ hwm))
  · intro e he
    rw [ADungeonRoom.RemoveDoor, if_neg hwlen] at he
    by_cases h1 : room.IsValidWallLocation loc = false
    · rw [if_pos h1] at he
      injection he with he
      exact Or.inl he.symm
    · rw [if_neg h1] at he
      by_cases h2 : room.HasDoorAtLocation loc = .ok false
      · rw [if_pos h2] at he
        injection he with he
        exact Or.inr he.symm
      · rw [if_neg h2] at he
        exact Except.noConfusion he

theorem claim_C1_amended_witness :
    (RoomBoundary.create 2 2 [1] [2] 0).AddDoor ⟨.North, 5⟩ 0 = .error .InvalidLocation ∧
    (RoomBoundary.create 2 2 [1] [2] 0).RemoveDoor ⟨.North, 0⟩ 0 = .error .NoDoorPresent :=
  ⟨(claim_C1_amended (RoomBoundary.create 2 2 [1] [2] 0) ⟨.North, 5⟩ 0 (by decide)
      (by decide)).1.1 (by decide),
   (claim_C1_amended (RoomBoundary.create 2 2 [1] [2] 0) ⟨.North, 0⟩ 0 (by decide)
      (by decide)).2.2.1 (by decide)⟩

/-- Claim C2 counterexample: with an empty wall palette the removal leg of the
round trip fails outright at a valid, door-free location; and with a wall
palette equal to the door palette, addDoor then removeDoor succeed but the
location still reports a door, so the round trip does not end at false. -/
theorem claim_C2_counterexample :
    ((⟨[9], [], ⟨[0, 0, 0]⟩, ⟨[0, 0, 0]⟩, ⟨[0]⟩, ⟨[0]⟩⟩ : ADungeonRoom).IsValidWallLocation
        ⟨.North, 1⟩ = true) ∧
    ((⟨[9], [], ⟨[0, 0, 0]⟩, ⟨[0, 0, 0]⟩, ⟨[0]⟩, ⟨[0]⟩⟩ : ADungeonRoom).HasDoorAtLocation
        ⟨.North, 1⟩ = .ok false) ∧
    (Except.bind ((⟨[9], [], ⟨[0, 0, 0]⟩, ⟨[0, 0, 0]⟩, ⟨[0]⟩, ⟨[0]⟩⟩ : ADungeonRoom).AddDoor
        ⟨.North, 1⟩ 0) (fun r => r.RemoveDoor ⟨.North, 1⟩ 0) =
      .error .MissingWallMeshes) ∧
    (Except.bind (Except.bind ((⟨[9], [9], ⟨[0, 0, 0]⟩, ⟨[0, 0, 0]⟩, ⟨[0]⟩, ⟨[0]⟩⟩ :
          ADungeonRoom).AddDoor ⟨.North, 1⟩ 0)
        (fun r => r.RemoveDoor ⟨.North, 1⟩ 0))
      (fun r => r.HasDoorAtLocation ⟨.North, 1⟩) = .ok true) := by decide

/-- Claim C2 (amended): for every room boundary whose door- and wall-mesh
palettes are non-empty and whose wall palette shares no mesh with the door
palette, and every valid wall location L with no door present at L: addDoor(L)
followed immediately by hasDoorAtLocation(L) yields true, and removeDoor(L)
immediately after that yields false (round-trip), for every random draw. -/
theorem claim_C2_amended (room : ADungeonRoom) (loc : FWallLocation) (r1 r2 : Nat)
    (hdm : room.m_DoorMeshes ≠ []) (hwm : room.m_WallMeshes ≠ [])
    (hdisj : ∀ m ∈ room.m_WallMeshes, m ∉ room.m_DoorMeshes)
    (hv : room.IsValidWallLocation loc = true)
    (hnd : room.HasDoorAtLocation loc = .ok false) :
    ∃ room2 room3,
      room.AddDoor loc r1 = .ok room2 ∧ room2.HasDoorAtLocation loc = .ok true ∧
      room2.RemoveDoor loc r2 = .ok room3 ∧
      room3.HasDoorAtLocation loc = .ok false := by
  have hv2 : (room.SetStaticMesh loc
      (ADungeonRoom.GetRandomMesh room.m_DoorMeshes r1)).IsValidWallLocation loc = true := by
    rw [IsValidWallLocation_SetStaticMesh]
    exact hv
  have hd2 := HasDoor_after_set_mem _ loc _ hv (GetRandomMesh_mem _ r1 hdm)
  refine ⟨room.SetStaticMesh loc (ADungeonRoom.GetRandomMesh room.m_DoorMeshes r1),
    (room.SetStaticMesh loc (ADungeonRoom.GetRandomMesh room.m_DoorMeshes r1)
      ).SetStaticMesh loc (ADungeonRoom.GetRandomMesh
        (room.SetStaticMesh loc
          (ADungeonRoom.GetRandomMesh room.m_DoorMeshes r1)).m_WallMeshes r2),
    (AddDoor_ok_iff _ _ _ _).mpr ⟨hdm, hv, hnd, rfl⟩, hd2,
    (RemoveDoor_ok_iff _ _ _ _).mpr
      ⟨by rw [SetStaticMesh_m_WallMeshes]; exact hwm, hv2, hd2, rfl⟩, ?_⟩
  have hmem : ADungeonRoom.GetRandomMesh
      (room.SetStaticMesh loc
        (ADungeonRoom.GetRandomMesh room.m_DoorMeshes r1)).m_WallMeshes r2 ∉
      (room.SetStaticMesh loc
        (ADungeonRoom.GetRandomMesh room.m_DoorMeshes r1)).m_DoorMeshes := by
    rw [SetStaticMesh_m_DoorMeshes, SetStaticMesh_m_WallMeshes]
    exact hdisj _ (GetRandomMesh_mem _ r2 hwm)
  exact HasDoor_after_set_not_mem _ _ _ hv2 hmem

theorem claim_C2_amended_witness :
    ∃ room2 room3,
      (RoomBoundary.create 2 3 [1] [2] 0).AddDoor ⟨.West, 1⟩ 0 = .ok room2 ∧
      room2.HasDoorAtLocation ⟨.West, 1⟩ = .ok true ∧
      room2.RemoveDoor ⟨.West, 1⟩ 0 = .ok room3 ∧
      room3.HasDoorAtLocation ⟨.West, 1⟩ = .ok false :=
  claim_C2_amended (RoomBoundary.create 2 3 [1] [2] 0) ⟨.West, 1⟩ 0 0 (by decide)
    (by decide) (by decide) (by decide) (by decide)

theorem create_MeshAt (width len : Nat) (doorMeshes wallMeshes : List UStaticMesh)
    (solidMesh : UStaticMesh) (loc : FWallLocation)
    (hv : (RoomBoundary.create width len doorMeshes wallMeshes
      solidMesh).IsValidWallLocation loc = true) :
    (RoomBoundary.create width len doorMeshes wallMeshes solidMesh).MeshAt loc =
      solidMesh := by
  rw [ADungeonRoom.IsValidWallLocation, IsValidSegmentIndex_iff] at hv
  cases loc with
  | mk d idx =>
    cases d <;>
      · simp only [RoomBoundary.create, ADungeonRoom.GetWall, ADungeonRoom.MeshAt,
          List.length_replicate] at hv ⊢
        exact getD_replicate_lt _ _ _ _ (by omega)

/-- Claim C3: for every valid footprint, a room boundary freshly created from
it (all segments carrying the template's solid mesh, which is not a door mesh)
reports no door at any valid wall location of any of the four walls. -/
theorem claim_C3 (width len : Nat) (doorMeshes wallMeshes : List UStaticMesh)
    (solidMesh : UStaticMesh) (loc : FWallLocation)
    (hsolid : solidMesh ∉ doorMeshes)
    (hv : (RoomBoundary.create width len doorMeshes wallMeshes
      solidMesh).IsValidWallLocation loc = true) :
    (RoomBoundary.create width len doorMeshes wallMeshes
      solidMesh).HasDoorAtLocation loc = .ok false := by
  rw [HasDoorAtLocation_valid _ _ hv, create_MeshAt _ _ _ _ _ _ hv]
  have hpal : (RoomBoundary.create width len doorMeshes wallMeshes
      solidMesh).m_DoorMeshes = doorMeshes := rfl
  rw [hpal, contains_eq_false_of_not_mem _ _ hsolid]

theorem claim_C3_witness :
    (RoomBoundary.create 3 2 [5] [7] 0).HasDoorAtLocation ⟨.South, 2⟩ = .ok false :=
  claim_C3 3 2 [5] [7] 0 ⟨.South, 2⟩ (by decide) (by decide)

/-- Claim C4: for a room whose walls satisfy the footprint invariant
(North/South have width segments, East/West have length segments),
IsValidWallLocation is true exactly when the segment index lies in
[0, width) for North/South and in [0, length) for East/West; in particular it
returns false (rather than failing) on any out-of-range input. -/
theorem claim_C4 (room : ADungeonRoom) (width len : Nat) (loc : FWallLocation)
    (hN : room.m_NorthWall.m_SegmentMeshes.length = width)
    (hS : room.m_SouthWall.m_SegmentMeshes.length = width)
    (hE : room.m_EastWall.m_SegmentMeshes.length = len)
    (hW : room.m_WestWall.m_SegmentMeshes.length = len) :
    room.IsValidWallLocation loc = true ↔
      ((loc.WallDirection = .North ∨ loc.WallDirection = .South) ∧
        0 ≤ loc.SegmentIndex ∧ loc.SegmentIndex < (width : Int)) ∨
      ((loc.WallDirection = .East ∨ loc.WallDirection = .West) ∧
        0 ≤ loc.SegmentIndex ∧ loc.SegmentIndex < (len : Int)) := by
  cases loc with
  | mk d idx =>
    cases d <;>
      simp [ADungeonRoom.IsValidWallLocation, ADungeonRoom.GetWall,
        IsValidSegmentIndex_iff, hN, hS, hE, hW]

theorem claim_C4_witness :
    (RoomBoundary.create 4 3 [1] [2] 0).IsValidWallLocation ⟨.East, 2⟩ = true ∧
    (RoomBoundary.create 4 3 [1] [2] 0).IsValidWallLocation ⟨.East, 3⟩ = false := by
  constructor
  · exact (claim_C4 (RoomBoundary.create 4 3 [1] [2] 0) 4 3 ⟨.East, 2⟩
      rfl rfl rfl rfl).mpr (by simp)
  · cases hv : (RoomBoundary.create 4 3 [1] [2] 0).IsValidWallLocation ⟨.East, 3⟩ with
    | false => rfl
    | true =>
      exact absurd ((claim_C4 (RoomBoundary.create 4 3 [1] [2] 0) 4 3 ⟨.East, 3⟩
        rfl rfl rfl rfl).mp hv) (by decide)

/-- Claim C10: whenever the door-mesh palette is empty, AddDoor fails with the
palette error for every wall location (even a valid door-free one), and
whenever the wall-mesh palette is empty, RemoveDoor does likewise; the
palette check runs before location validity and door presence, an additional
failure condition beyond the spec's listed error kinds. -/
theorem claim_C10 (room : ADungeonRoom) (loc : FWallLocation) (r : Nat) :
    (room.m_DoorMeshes = [] → room.AddDoor loc r = .error .MissingDoorMeshes) ∧
    (room.m_WallMeshes = [] → room.RemoveDoor loc r = .error .MissingWallMeshes) := by
  constructor
  · intro h
    rw [ADungeonRoom.AddDoor, if_pos (by rw [h]; rfl)]
  · intro h
    rw [ADungeonRoom.RemoveDoor, if_pos (by rw [h]; rfl)]

theorem claim_C10_witness :
    ((⟨[], [], ⟨[0, 0]⟩, ⟨[0, 0]⟩, ⟨[0]⟩, ⟨[0]⟩⟩ : ADungeonRoom).AddDoor ⟨.North, 7⟩ 0 =
      .error .MissingDoorMeshes) ∧
    ((⟨[], [], ⟨[0, 0]⟩, ⟨[0, 0]⟩, ⟨[0]⟩, ⟨[0]⟩⟩ : ADungeonRoom).RemoveDoor ⟨.North, 0⟩ 0 =
      .error .MissingWallMeshes) :=
  ⟨(claim_C10 (⟨[], [], ⟨[0, 0]⟩, ⟨[0, 0]⟩, ⟨[0]⟩, ⟨[0]⟩⟩ : ADungeonRoom)
      ⟨.North, 7⟩ 0).1 rfl,
   (claim_C10 (⟨[], [], ⟨[0, 0]⟩, ⟨[0, 0]⟩, ⟨[0]⟩, ⟨[0]⟩⟩ : ADungeonRoom)
      ⟨.North, 0⟩ 0).2 rfl⟩

/-- Frame property of AddDoor: a successful call touches only its own
location. -/
theorem AddDoor_frame (room room' : ADungeonRoom) (loc loc2 : FWallLocation) (r : Nat)
    (hne : loc ≠ loc2) (h : room.AddDoor loc r = .ok room') :
    room'.HasDoorAtLocation loc2 = room.HasDoorAtLocation loc2 := by
  obtain ⟨_, hv, _, hr⟩ := (AddDoor_ok_iff _ _ _ _).mp h
  rw [hr]
  exact HasDoorAtLocation_SetStaticMesh_ne _ _ _ _ hv hne

/-- Frame property of RemoveDoor: a successful call touches only its own
location. -/
theorem RemoveDoor_frame (room room' : ADungeonRoom) (loc loc2 : FWallLocation) (r : Nat)
    (hne : loc ≠ loc2) (h : room.RemoveDoor loc r = .ok room') :
    room'.HasDoorAtLocation loc2 = room.HasDoorAtLocation loc2 := by
  obtain ⟨_, hv, _, hr⟩ := (RemoveDoor_ok_iff _ _ _ _).mp h
  rw [hr]
  exact HasDoorAtLocation_SetStaticMesh_ne _ _ _ _ hv hne

theorem mem_range_map_cast (n : Nat) (d : EDirection) (idx : Int) :
    (FWallLocation.mk d idx ∈ (List.range n).map (fun (i : Nat) => FWallLocation.mk d (i : Int))) ↔
      0 ≤ idx ∧ idx < (n : Int) := by
  constructor
  · intro h
    rcases List.mem_map.mp h with ⟨i, hi, hc⟩
    rw [List.mem_range] at hi
    have h2 : (i : Int) = idx := congrArg FWallLocation.SegmentIndex hc
    omega
  · intro ⟨h0, hlt⟩
    refine List.mem_map.mpr ⟨idx.toNat, List.mem_range.mpr (by omega), ?_⟩
    have h2 : ((idx.toNat : Nat) : Int) = idx := by omega
    rw [h2]

theorem not_mem_range_map_ne (n : Nat) (d d' : EDirection) (idx : Int) (hne : d' ≠ d) :
    FWallLocation.mk d idx ∉ (List.range n).map (fun (i : Nat) => FWallLocation.mk d' (i : Int)) := by
  intro h
  rcases List.mem_map.mp h with ⟨i, _, hc⟩
  exact hne (congrArg FWallLocation.WallDirection hc)

/-- allWallLocations enumerates exactly the valid wall locations. -/
theorem mem_allWallLocations (room : ADungeonRoom) (loc : FWallLocation) :
    loc ∈ allWallLocations room ↔ room.IsValidWallLocation loc = true := by
  cases loc with
  | mk d idx =>
    rw [ADungeonRoom.IsValidWallLocation, IsValidSegmentIndex_iff]
    unfold allWallLocations
    rw [List.mem_append, List.mem_append, List.mem_append]
    cases d with
    | North =>
      constructor
      · intro h
        rcases h with ((h | h) | h) | h
        · exact (mem_range_map_cast _ _ _).mp h
        · exact absurd h (not_mem_range_map_ne _ _ _ _
            (fun hh => EDirection.noConfusion hh))
        · exact absurd h (not_mem_range_map_ne _ _ _ _
            (fun hh => EDirection.noConfusion hh))
        · exact absurd h (not_mem_range_map_ne _ _ _ _
            (fun hh => EDirection.noConfusion hh))
      · intro h
        exact Or.inl (Or.inl (Or.inl ((mem_range_map_cast _ _ _).mpr h)))
    | South =>
      constructor
      · intro h
        rcases h with ((h | h) | h) | h
        · exact absurd h (not_mem_range_map_ne _ _ _ _
            (fun hh => EDirection.noConfusion hh))
        · exact (mem_range_map_cast _ _ _).mp h
        · exact absurd h (not_mem_range_map_ne _ _ _ _
            (fun hh => EDirection.noConfusion hh))
        · exact absurd h (not_mem_range_map_ne _ _ _ _
            (fun hh => EDirection.noConfusion hh))
      · intro h
        exact Or.inl (Or.inl (Or.inr ((mem_range_map_cast _ _ _).mpr h)))
    | East =>
      constructor
      · intro h
        rcases h with ((h | h) | h) | h
        · exact absurd h (not_mem_range_map_ne _ _ _ _
            (fun hh => EDirection.noConfusion hh))
        · exact absurd h (not_mem_range_map_ne _ _ _ _
            (fun hh => EDirection.noConfusion hh))
        · exact (mem_range_map_cast _ _ _).mp h
        · exact absurd h (not_mem_range_map_ne _ _ _ _
            (fun hh => EDirection.noConfusion hh))
      · intro h
        exact Or.inl (Or.inr ((mem_range_map_cast _ _ _).mpr h))
    | West =>
      constructor
      · intro h
        rcases h with ((h | h) | h) | h
        · exact absurd h (not_mem_range_map_ne _ _ _ _
            (fun hh => EDirection.noConfusion hh))
        · exact absurd h (not_mem_range_map_ne _ _ _ _
            (fun hh => EDirection.noConfusion hh))
        · exact absurd h (not_mem_range_map_ne _ _ _ _
            (fun hh => EDirection.noConfusion hh))
        · exact (mem_range_map_cast _ _ _).mp h
      · intro h
        exact Or.inr ((mem_range_map_cast _ _ _).mpr h)

/-- The Spawn door loop succeeds on distinct, valid, door-free locations,
places a door at each of them, and leaves every other location unchanged. -/
theorem SpawnLoop_ok : ∀ (pairs : List (FWallLocation × Nat)) (room : ADungeonRoom),
    room.m_DoorMeshes ≠ [] →
    (pairs.map Prod.fst).Nodup →
    (∀ p ∈ pairs, room.IsValidWallLocation p.1 = true) →
    (∀ p ∈ pairs, room.HasDoorAtLocation p.1 = .ok false) →
    ∃ room', room.SpawnLoop pairs = .ok room' ∧
      (∀ p ∈ pairs, room'.HasDoorAtLocation p.1 = .ok true) ∧
      (∀ loc2, (∀ p ∈ pairs, p.1 ≠ loc2) →
        room'.HasDoorAtLocation loc2 = room.HasDoorAtLocation loc2)
  | [], room, _, _, _, _ =>
    ⟨room, rfl, fun p hp => absurd hp (List.not_mem_nil p), fun _ _ => rfl⟩
  | (loc, r) :: rest, room, hdm, hnodup, hvalid, hfree => by
    have hv : room.IsValidWallLocation loc = true := hvalid (loc, r) (List.mem_cons_self _ _)
    have hnd : room.HasDoorAtLocation loc = .ok false := hfree (loc, r) (List.mem_cons_self _ _)
    have hadd : room.AddDoor loc r =
        .ok (room.SetStaticMesh loc (ADungeonRoom.GetRandomMesh room.m_DoorMeshes r)) :=
      (AddDoor_ok_iff _ _ _ _).mpr ⟨hdm, hv, hnd, rfl⟩
    have hnodup' : (loc :: rest.map Prod.fst).Nodup := by
      rw [List.map_cons] at hnodup
      exact hnodup
    have hhead : ∀ p ∈ rest, p.1 ≠ loc := by
      intro p hp hh
      exact (List.nodup_cons.mp hnodup').1 (hh ▸ List.mem_map_of_mem Prod.fst hp)
    obtain ⟨room', hloop, hdoors, hframe⟩ := SpawnLoop_ok rest
      (room.SetStaticMesh loc (ADungeonRoom.GetRandomMesh room.m_DoorMeshes r))
      (by rw [SetStaticMesh_m_DoorMeshes]; exact hdm)
      ((List.nodup_cons.mp hnodup').2)
      (by
        intro p hp
        rw [IsValidWallLocation_SetStaticMesh]
        exact hvalid p (List.mem_cons_of_mem _ hp))
      (by
        intro p hp
        rw [HasDoorAtLocation_SetStaticMesh_ne _ _ _ _ hv (fun hh => hhead p hp hh.symm)]
        exact hfree p (List.mem_cons_of_mem _ hp))
    refine ⟨room', by simp only [ADungeonRoom.SpawnLoop, hadd]; exact hloop, ?_, ?_⟩
    · intro p hp
      rcases List.mem_cons.mp hp with hp | hp
      · rw [hp]
        rw [hframe loc (fun q hq => hhead q hq)]
        exact HasDoor_after_set_mem _ _ _ hv (GetRandomMesh_mem _ _ hdm)
      · exact hdoors p hp
    · intro loc2 hloc2
      rw [hframe loc2 (fun q hq => hloc2 q (List.mem_cons_of_mem _ hq))]
      exact HasDoorAtLocation_SetStaticMesh_ne _ _ _ _ hv
        (hloc2 (loc, r) (List.mem_cons_self _ _))

/-- Claim C8: a spawn request carrying a loaded template (both mesh palettes
non-empty, as PostActorCreated enforces) and a batch of door locations that
are valid, pairwise distinct, and door-free in the fresh template yields a
room with a door reported at every listed location. -/
theorem claim_C8 (template : ADungeonRoom) (pairs : List (FWallLocation × Nat))
    (hdm : template.m_DoorMeshes ≠ []) (hwm : template.m_WallMeshes ≠ [])
    (hnodup : (pairs.map Prod.fst).Nodup)
    (hvalid : ∀ p ∈ pairs, template.IsValidWallLocation p.1 = true)
    (hfree : ∀ p ∈ pairs, template.HasDoorAtLocation p.1 = .ok false) :
    ∃ room', template.Spawn pairs = .ok room' ∧
      ∀ p ∈ pairs, room'.HasDoorAtLocation p.1 = .ok true := by
  obtain ⟨room', hloop, hdoors, _⟩ := SpawnLoop_ok pairs template hdm hnodup hvalid hfree
  refine ⟨room', ?_, hdoors⟩
  have hpost : template.PostActorCreated = .ok () := by
    rw [ADungeonRoom.PostActorCreated,
      if_neg (fun hh => hdm (List.length_eq_zero.mp hh)),
      if_neg (fun hh => hwm (List.length_eq_zero.mp hh))]
  rw [ADungeonRoom.Spawn, hpost]
  exact hloop

theorem claim_C8_witness :
    ∃ room', (RoomBoundary.create 3 3 [1] [2] 0).Spawn
        [(⟨.North, 0⟩, 0), (⟨.East, 2⟩, 1)] = .ok room' ∧
      ∀ p ∈ [((FWallLocation.mk .North 0 : FWallLocation), (0 : Nat)),
        (FWallLocation.mk .East 2, 1)], room'.HasDoorAtLocation p.1 = .ok true :=
  claim_C8 (RoomBoundary.create 3 3 [1] [2] 0) [(⟨.North, 0⟩, 0), (⟨.East, 2⟩, 1)]
    (by decide) (by decide) (by decide) (by decide) (by decide)

/-- Claim C9 counterexample: in the spec's 4x3 scenario the four doors leave
TEN remaining valid wall locations, not eight (the spec's own per-wall
breakdown sums to seven): the claim's count of the remaining locations is
false on the code. -/
theorem claim_C9_counterexample :
    ((RoomBoundary.create 4 3 [1] [2] 0).Spawn
        [(⟨.North, 0⟩, 0), (⟨.South, 2⟩, 0), (⟨.East, 1⟩, 0), (⟨.West, 0⟩, 0)] =
      .ok (⟨[1], [2], ⟨[1, 0, 0, 0]⟩, ⟨[0, 0, 1, 0]⟩, ⟨[0, 1, 0]⟩, ⟨[1, 0, 0]⟩⟩ :
        ADungeonRoom)) ∧
    ((allWallLocations (⟨[1], [2], ⟨[1, 0, 0, 0]⟩, ⟨[0, 0, 1, 0]⟩, ⟨[0, 1, 0]⟩,
        ⟨[1, 0, 0]⟩⟩ : ADungeonRoom)).filter
      (fun loc => decide (loc ∉ [FWallLocation.mk .North 0, FWallLocation.mk .South 2,
        FWallLocation.mk .East 1, FWallLocation.mk .West 0]))).length = 10 ∧
    ¬ ((allWallLocations (⟨[1], [2], ⟨[1, 0, 0, 0]⟩, ⟨[0, 0, 1, 0]⟩, ⟨[0, 1, 0]⟩,
        ⟨[1, 0, 0]⟩⟩ : ADungeonRoom)).filter
      (fun loc => decide (loc ∉ [FWallLocation.mk .North 0, FWallLocation.mk .South 2,
        FWallLocation.mk .East 1, FWallLocation.mk .West 0]))).length = 8 := by decide

/-- Claim C9 (amended): a successful addDoor or removeDoor at a location L
leaves the reported door state at every other location unchanged; and after
constructing a 4x3 room and adding doors at North 0, South 2, East 1, West 0,
those four locations report a door present and the remaining TEN valid
locations all report no door. -/
theorem claim_C9_amended :
    (∀ (room room' : ADungeonRoom) (loc loc2 : FWallLocation) (r : Nat), loc ≠ loc2 →
      room.AddDoor loc r = .ok room' →
      room'.HasDoorAtLocation loc2 = room.HasDoorAtLocation loc2) ∧
    (∀ (room room' : ADungeonRoom) (loc loc2 : FWallLocation) (r : Nat), loc ≠ loc2 →
      room.RemoveDoor loc r = .ok room' →
      room'.HasDoorAtLocation loc2 = room.HasDoorAtLocation loc2) ∧
    (∀ roomF, (RoomBoundary.create 4 3 [1] [2] 0).Spawn
        [(⟨.North, 0⟩, 0), (⟨.South, 2⟩, 0), (⟨.East, 1⟩, 0), (⟨.West, 0⟩, 0)] =
          .ok roomF →
      (∀ loc ∈ [FWallLocation.mk .North 0, FWallLocation.mk .South 2,
          FWallLocation.mk .East 1, FWallLocation.mk .West 0],
        roomF.HasDoorAtLocation loc = .ok true) ∧
      ((allWallLocations roomF).filter (fun loc => decide (loc ∉
          [FWallLocation.mk .North 0, FWallLocation.mk .South 2,
           FWallLocation.mk .East 1, FWallLocation.mk .West 0]))).length = 10 ∧
      (∀ loc ∈ (allWallLocations roomF).filter (fun loc => decide (loc ∉
          [FWallLocation.mk .North 0, FWallLocation.mk .South 2,
           FWallLocation.mk .East 1, FWallLocation.mk .West 0])),
        roomF.HasDoorAtLocation loc = .ok false)) := by
  refine ⟨AddDoor_frame, RemoveDoor_frame, ?_⟩
  intro roomF h
  have hs : (RoomBoundary.create 4 3 [1] [2] 0).Spawn
      [(⟨.North, 0⟩, 0), (⟨.South, 2⟩, 0), (⟨.East, 1⟩, 0), (⟨.West, 0⟩, 0)] =
      .ok (⟨[1], [2], ⟨[1, 0, 0, 0]⟩, ⟨[0, 0, 1, 0]⟩, ⟨[0, 1, 0]⟩, ⟨[1, 0, 0]⟩⟩ :
        ADungeonRoom) := by decide
  rw [hs] at h
  injection h with h
  subst h
  exact ⟨by decide, by decide, by decide⟩

theorem claim_C9_amended_witness :
    ((RoomBoundary.create 2 2 [1] [2] 0).SetStaticMesh ⟨.North, 0⟩ 1).HasDoorAtLocation
        ⟨.South, 1⟩ = (RoomBoundary.create 2 2 [1] [2] 0).HasDoorAtLocation ⟨.South, 1⟩ :=
  claim_C9_amended.1 (RoomBoundary.create 2 2 [1] [2] 0)
    ((RoomBoundary.create 2 2 [1] [2] 0).SetStaticMesh ⟨.North, 0⟩ 1)
    ⟨.North, 0⟩ ⟨.South, 1⟩ 0 (by decide) (by decide)

/-! Helper lemmas about the database build. -/

theorem lookupAssoc_updateAssoc_self {K V : Type} [DecidableEq K] :
    ∀ (m : List (K × V)) (key : K) (d : V) (f : V → V),
    lookupAssoc (updateAssoc m key d f) key = some (f ((lookupAssoc m key).getD d))
  | [], key, d, f => by simp [updateAssoc, lookupAssoc]
  | (k, v) :: rest, key, d, f => by
    by_cases h : k = key
    · subst h
      simp [updateAssoc, lookupAssoc]
    · simp only [updateAssoc, lookupAssoc, if_neg h]
      exact lookupAssoc_updateAssoc_self rest key d f

theorem lookupAssoc_updateAssoc_ne {K V : Type} [DecidableEq K] :
    ∀ (m : List (K × V)) (key key' : K) (d : V) (f : V → V), key' ≠ key →
    lookupAssoc (updateAssoc m key d f) key' = lookupAssoc m key'
  | [], key, key', d, f, hne => by
    simp only [updateAssoc, lookupAssoc]
    rw [if_neg (fun hh => hne (Eq.symm hh))]
  | (k, v) :: rest, key, key', d, f, hne => by
    simp only [updateAssoc]
    by_cases h : k = key
    · rw [if_pos h]
      simp only [lookupAssoc]
      by_cases h2 : k = key'
      · exact absurd ((Eq.symm h2).trans h) hne
      · rw [if_neg h2, if_neg h2]
    · rw [if_neg h]
      simp only [lookupAssoc]
      by_cases h2 : k = key'
      · rw [if_pos h2, if_pos h2]
      · rw [if_neg h2, if_neg h2]
        exact lookupAssoc_updateAssoc_ne rest key key' d f hne

theorem foldl_AddAsset_paths : ∀ (records : List FRoomAssetRecord) (db : FDungeonRoomDatabase),
    (records.foldl FDungeonRoomDatabase.AddAssetToDatabase db).m_PathsByRoomSpecs =
      records.foldl
        (fun acc a => updateAssoc acc a.Specs [] (fun ps => ps ++ [a.Path]))
        db.m_PathsByRoomSpecs
  | [], _ => rfl
  | a :: rest, db => by
    rw [List.foldl_cons, List.foldl_cons, foldl_AddAsset_paths rest]
    rfl

theorem foldl_AddAsset_maxWidth : ∀ (records : List FRoomAssetRecord) (db : FDungeonRoomDatabase),
    (records.foldl FDungeonRoomDatabase.AddAssetToDatabase db).m_MaxWidthByTheme =
      records.foldl
        (fun acc a => updateAssoc acc a.Specs.Theme 0
          (fun v => if v < a.Specs.Dimensions.Width then a.Specs.Dimensions.Width else v))
        db.m_MaxWidthByTheme
  | [], _ => rfl
  | a :: rest, db => by
    rw [List.foldl_cons, List.foldl_cons, foldl_AddAsset_maxWidth rest]
    rfl

theorem foldl_AddAsset_maxLength : ∀ (records : List FRoomAssetRecord) (db : FDungeonRoomDatabase),
    (records.foldl FDungeonRoomDatabase.AddAssetToDatabase db).m_MaxLengthByTheme =
      records.foldl
        (fun acc a => updateAssoc acc a.Specs.Theme 0
          (fun v => if v < a.Specs.Dimensions.Length then a.Specs.Dimensions.Length else v))
        db.m_MaxLengthByTheme
  | [], _ => rfl
  | a :: rest, db => by
    rw [List.foldl_cons, List.foldl_cons, foldl_AddAsset_maxLength rest]
    rfl

theorem lookup_foldl_paths : ∀ (records : List FRoomAssetRecord)
    (m : List (FDungeonRoomSpecs × List FSoftObjectPath)) (specs : FDungeonRoomSpecs),
    lookupAssoc (records.foldl
        (fun acc a => updateAssoc acc a.Specs [] (fun ps => ps ++ [a.Path])) m) specs =
      match lookupAssoc m specs with
      | some ps => some (ps ++
          (records.filter (fun a => decide (a.Specs = specs))).map FRoomAssetRecord.Path)
      | none =>
        if records.filter (fun a => decide (a.Specs = specs)) = [] then none
        else some ((records.filter (fun a => decide (a.Specs = specs))).map
          FRoomAssetRecord.Path)
  | [], m, specs => by
    cases h : lookupAssoc m specs <;> simp [h]
  | a :: rest, m, specs => by
    rw [List.foldl_cons, lookup_foldl_paths rest _ specs]
    by_cases hs : a.Specs = specs
    · rw [hs, lookupAssoc_updateAssoc_self]
      cases h : lookupAssoc m specs with
      | none => simp [List.filter_cons, hs, h]
      | some ps => simp [List.filter_cons, hs, h]
    · rw [lookupAssoc_updateAssoc_ne _ _ _ _ _ (fun hh => hs hh.symm)]
      cases h : lookupAssoc m specs with
      | none => simp [List.filter_cons, hs, h]
      | some ps => simp [List.filter_cons, hs, h]

/-- The running maximum the max-map update computes, in the shape of the
source's compare-and-assign loop. -/
def runMax : Int → List Int → Int
  | v, [] => v
  | v, x :: ws => runMax (if v < x then x else v) ws

theorem le_runMax : ∀ (ws : List Int) (v : Int), v ≤ runMax v ws
  | [], v => le_refl v
  | x :: ws, v => by
    rw [runMax]
    exact le_trans (by split <;> omega) (le_runMax ws (if v < x then x else v))

theorem mem_le_runMax : ∀ (ws : List Int) (v x : Int), x ∈ ws → x ≤ runMax v ws
  | [], _, _, hx => absurd hx (List.not_mem_nil _)
  | y :: ws, v, x, hx => by
    rw [runMax]
    rcases List.mem_cons.mp hx with h | h
    · subst h
      exact le_trans (by split <;> omega) (le_runMax ws (if v < x then x else v))
    · exact mem_le_runMax ws _ x h

theorem runMax_eq_or_mem : ∀ (ws : List Int) (v : Int), runMax v ws = v ∨ runMax v ws ∈ ws
  | [], _ => Or.inl rfl
  | x :: ws, v => by
    rw [runMax]
    rcases runMax_eq_or_mem ws (if v < x then x else v) with h | h
    · rw [h]
      by_cases hvx : v < x
      · rw [if_pos hvx]
        exact Or.inr (List.mem_cons_self x ws)
      · rw [if_neg hvx]
        exact Or.inl rfl
    · exact Or.inr (List.mem_cons_of_mem _ h)

theorem lookup_foldl_max (g : FRoomAssetRecord → Int) :
    ∀ (records : List FRoomAssetRecord)
    (m : List (EDungeonTheme × FNumberOfTiles)) (theme : EDungeonTheme),
    lookupAssoc (records.foldl
        (fun acc a => updateAssoc acc a.Specs.Theme 0
          (fun v => if v < g a then g a else v)) m) theme =
      match lookupAssoc m theme with
      | some v => some (runMax v
          ((records.filter (fun a => decide (a.Specs.Theme = theme))).map g))
      | none =>
        if records.filter (fun a => decide (a.Specs.Theme = theme)) = [] then none
        else some (runMax 0
          ((records.filter (fun a => decide (a.Specs.Theme = theme))).map g))
  | [], m, theme => by
    cases h : lookupAssoc m theme <;> simp [h, runMax]
  | a :: rest, m, theme => by
    rw [List.foldl_cons, lookup_foldl_max g rest _ theme]
    by_cases hs : a.Specs.Theme = theme
    · rw [hs, lookupAssoc_updateAssoc_self]
      cases h : lookupAssoc m theme with
      | none => simp [List.filter_cons, hs, h, runMax]
      | some v => simp [List.filter_cons, hs, h, runMax]
    · rw [lookupAssoc_updateAssoc_ne _ _ _ _ _ (fun hh => hs hh.symm)]
      cases h : lookupAssoc m theme with
      | none => simp [List.filter_cons, hs, h]
      | some v => simp [List.filter_cons, hs, h]

theorem InitializeDatabase_ok (records : List FRoomAssetRecord) (db : FDungeonRoomDatabase)
    (hbuild : FDungeonRoomDatabase.InitializeDatabase records = .ok db) :
    db = records.foldl FDungeonRoomDatabase.AddAssetToDatabase FDungeonRoomDatabase.empty ∧
      records ≠ [] := by
  rw [FDungeonRoomDatabase.InitializeDatabase] at hbuild
  by_cases h : records.length = 0
  · rw [if_pos h] at hbuild
    exact Except.noConfusion hbuild
  · rw [if_neg h] at hbuild
    injection hbuild with hb
    exact ⟨hb.symm, fun hh => h (by rw [hh]; rfl)⟩

/-- Claim C5: in a database built from a non-empty record sequence of positive
footprints, GetMaxWidth and GetMaxLength fail with ThemeNotFound for a theme
with no recorded templates, and otherwise return the maximum width and the
maximum length over that theme's records, tracked independently (each maximum
is attained by some record of the theme, possibly different ones). -/
theorem claim_C5 (records : List FRoomAssetRecord) (db : FDungeonRoomDatabase)
    (theme : EDungeonTheme)
    (hbuild : FDungeonRoomDatabase.InitializeDatabase records = .ok db)
    (hpos : ∀ a ∈ records, 0 < a.Specs.Dimensions.Width ∧ 0 < a.Specs.Dimensions.Length) :
    (records.filter (fun a => decide (a.Specs.Theme = theme)) = [] →
      db.GetMaxWidth theme = .error .ThemeNotFound ∧
      db.GetMaxLength theme = .error .ThemeNotFound) ∧
    (records.filter (fun a => decide (a.Specs.Theme = theme)) ≠ [] →
      ∃ w l, db.GetMaxWidth theme = .ok w ∧ db.GetMaxLength theme = .ok l ∧
        (∃ aw, aw ∈ records ∧ aw.Specs.Theme = theme ∧ aw.Specs.Dimensions.Width = w) ∧
        (∀ a ∈ records, a.Specs.Theme = theme → a.Specs.Dimensions.Width ≤ w) ∧
        (∃ al, al ∈ records ∧ al.Specs.Theme = theme ∧ al.Specs.Dimensions.Length = l) ∧
        (∀ a ∈ records, a.Specs.Theme = theme → a.Specs.Dimensions.Length ≤ l)) := by
  obtain ⟨hdb, -⟩ := InitializeDatabase_ok records db hbuild
  subst hdb
  have hlookW : lookupAssoc
      ((records.foldl FDungeonRoomDatabase.AddAssetToDatabase
        FDungeonRoomDatabase.empty).m_MaxWidthByTheme) theme =
      (if records.filter (fun a => decide (a.Specs.Theme = theme)) = [] then none
       else some (runMax 0 ((records.filter (fun a => decide (a.Specs.Theme = theme))).map
         (fun a => a.Specs.Dimensions.Width)))) := by
    rw [foldl_AddAsset_maxWidth, lookup_foldl_max]
    rfl
  have hlookL : lookupAssoc
      ((records.foldl FDungeonRoomDatabase.AddAssetToDatabase
        FDungeonRoomDatabase.empty).m_MaxLengthByTheme) theme =
      (if records.filter (fun a => decide (a.Specs.Theme = theme)) = [] then none
       else some (runMax 0 ((records.filter (fun a => decide (a.Specs.Theme = theme))).map
         (fun a => a.Specs.Dimensions.Length)))) := by
    rw [foldl_AddAsset_maxLength, lookup_foldl_max]
    rfl
  constructor
  · intro hf
    constructor
    · simp only [FDungeonRoomDatabase.GetMaxWidth]
      rw [hlookW, if_pos hf]
    · simp only [FDungeonRoomDatabase.GetMaxLength]
      rw [hlookL, if_pos hf]
  · intro hf
    obtain ⟨a0, ha0⟩ := List.exists_mem_of_ne_nil _ hf
    have ha0r := List.mem_filter.mp ha0
    refine ⟨runMax 0 ((records.filter (fun a => decide (a.Specs.Theme = theme))).map
        (fun a => a.Specs.Dimensions.Width)),
      runMax 0 ((records.filter (fun a => decide (a.Specs.Theme = theme))).map
        (fun a => a.Specs.Dimensions.Length)), ?_, ?_, ?_, ?_, ?_, ?_⟩
    · simp only [FDungeonRoomDatabase.GetMaxWidth]
      rw [hlookW, if_neg hf]
    · simp only [FDungeonRoomDatabase.GetMaxLength]
      rw [hlookL, if_neg hf]
    · rcases runMax_eq_or_mem ((records.filter
          (fun a => decide (a.Specs.Theme = theme))).map
          (fun a => a.Specs.Dimensions.Width)) 0 with h | h
      · exfalso
        have hle : a0.Specs.Dimensions.Width ≤ runMax 0
            ((records.filter (fun a => decide (a.Specs.Theme = theme))).map
              (fun a => a.Specs.Dimensions.Width)) := mem_le_runMax _ 0 _
          (List.mem_map_of_mem (fun a => a.Specs.Dimensions.Width) ha0)
        have hp := (hpos a0 ha0r.1).1
        rw [h] at hle
        exact absurd hp (not_lt.mpr hle)
      · rcases List.mem_map.mp h with ⟨aw, hawf, haww⟩
        have hm := List.mem_filter.mp hawf
        exact ⟨aw, hm.1, of_decide_eq_true hm.2, haww⟩
    · intro a ha htheme
      exact mem_le_runMax _ _ _ (List.mem_map_of_mem _
        (List.mem_filter.mpr ⟨ha, decide_eq_true htheme⟩))
    · rcases runMax_eq_or_mem ((records.filter
          (fun a => decide (a.Specs.Theme = theme))).map
          (fun a => a.Specs.Dimensions.Length)) 0 with h | h
      · exfalso
        have hle : a0.Specs.Dimensions.Length ≤ runMax 0
            ((records.filter (fun a => decide (a.Specs.Theme = theme))).map
              (fun a => a.Specs.Dimensions.Length)) := mem_le_runMax _ 0 _
          (List.mem_map_of_mem (fun a => a.Specs.Dimensions.Length) ha0)
        have hp := (hpos a0 ha0r.1).2
        rw [h] at hle
        exact absurd hp (not_lt.mpr hle)
      · rcases List.mem_map.mp h with ⟨al, half, hall⟩
        have hm := List.mem_filter.mp half
        exact ⟨al, hm.1, of_decide_eq_true hm.2, hall⟩
    · intro a ha htheme
      exact mem_le_runMax _ _ _ (List.mem_map_of_mem _
        (List.mem_filter.mpr ⟨ha, decide_eq_true htheme⟩))

theorem claim_C5_witness :
    ∃ w l,
      (FDungeonRoomDatabase.mk [(⟨0, 4, 4⟩, ["a"]), (⟨0, 6, 4⟩, ["b"]), (⟨1, 4, 4⟩, ["c"])]
        [(0, 6), (1, 4)] [(0, 4), (1, 4)]).GetMaxWidth 0 = .ok w ∧
      (FDungeonRoomDatabase.mk [(⟨0, 4, 4⟩, ["a"]), (⟨0, 6, 4⟩, ["b"]), (⟨1, 4, 4⟩, ["c"])]
        [(0, 6), (1, 4)] [(0, 4), (1, 4)]).GetMaxLength 0 = .ok l ∧
      (∃ aw, aw ∈ ([⟨⟨0, 4, 4⟩, "a"⟩, ⟨⟨0, 6, 4⟩, "b"⟩, ⟨⟨1, 4, 4⟩, "c"⟩] :
          List FRoomAssetRecord) ∧ aw.Specs.Theme = 0 ∧ aw.Specs.Dimensions.Width = w) ∧
      (∀ a ∈ ([⟨⟨0, 4, 4⟩, "a"⟩, ⟨⟨0, 6, 4⟩, "b"⟩, ⟨⟨1, 4, 4⟩, "c"⟩] :
          List FRoomAssetRecord), a.Specs.Theme = 0 → a.Specs.Dimensions.Width ≤ w) ∧
      (∃ al, al ∈ ([⟨⟨0, 4, 4⟩, "a"⟩, ⟨⟨0, 6, 4⟩, "b"⟩, ⟨⟨1, 4, 4⟩, "c"⟩] :
          List FRoomAssetRecord) ∧ al.Specs.Theme = 0 ∧ al.Specs.Dimensions.Length = l) ∧
      (∀ a ∈ ([⟨⟨0, 4, 4⟩, "a"⟩, ⟨⟨0, 6, 4⟩, "b"⟩, ⟨⟨1, 4, 4⟩, "c"⟩] :
          List FRoomAssetRecord), a.Specs.Theme = 0 → a.Specs.Dimensions.Length ≤ l) :=
  (claim_C5 [⟨⟨0, 4, 4⟩, "a"⟩, ⟨⟨0, 6, 4⟩, "b"⟩, ⟨⟨1, 4, 4⟩, "c"⟩]
    (FDungeonRoomDatabase.mk [(⟨0, 4, 4⟩, ["a"]), (⟨0, 6, 4⟩, ["b"]), (⟨1, 4, 4⟩, ["c"])]
      [(0, 6), (1, 4)] [(0, 4), (1, 4)]) 0 (by decide) (by decide)).2 (by decide)

/-- Claim C6: exists(spec) fails with InvalidSpecification exactly when the
queried width or length is non-positive, and otherwise reports true precisely
when at least one supplied record had exactly that specification. -/
theorem claim_C6 (records : List FRoomAssetRecord) (db : FDungeonRoomDatabase)
    (specs : FDungeonRoomSpecs)
    (hbuild : FDungeonRoomDatabase.InitializeDatabase records = .ok db) :
    ((specs.Dimensions.Width ≤ 0 ∨ specs.Dimensions.Length ≤ 0) →
      db.DoesAssetExistWithSpecs specs = .error .InvalidSpecification) ∧
    (∀ e, db.DoesAssetExistWithSpecs specs = .error e →
      e = .InvalidSpecification ∧
        (specs.Dimensions.Width ≤ 0 ∨ specs.Dimensions.Length ≤ 0)) ∧
    (0 < specs.Dimensions.Width → 0 < specs.Dimensions.Length →
      (db.DoesAssetExistWithSpecs specs = .ok true ↔
        ∃ a, a ∈ records ∧ a.Specs = specs) ∧
      (db.DoesAssetExistWithSpecs specs = .ok false ↔
        ¬ ∃ a, a ∈ records ∧ a.Specs = specs)) := by
  obtain ⟨hdb, -⟩ := InitializeDatabase_ok records db hbuild
  subst hdb
  have hlook : lookupAssoc
      ((records.foldl FDungeonRoomDatabase.AddAssetToDatabase
        FDungeonRoomDatabase.empty).m_PathsByRoomSpecs) specs =
      (if records.filter (fun a => decide (a.Specs = specs)) = [] then none
       else some ((records.filter (fun a => decide (a.Specs = specs))).map
         FRoomAssetRecord.Path)) := by
    rw [foldl_AddAsset_paths, lookup_foldl_paths]
    rfl
  refine ⟨?_, ?_, ?_⟩
  · intro h
    rw [FDungeonRoomDatabase.DoesAssetExistWithSpecs, if_pos h]
  · intro e he
    rw [FDungeonRoomDatabase.DoesAssetExistWithSpecs] at he
    by_cases h : specs.Dimensions.Width ≤ 0 ∨ specs.Dimensions.Length ≤ 0
    · rw [if_pos h] at he
      injection he with he
      exact ⟨he.symm, h⟩
    · rw [if_neg h] at he
      exact Except.noConfusion he
  · intro hw hl
    have hcond : ¬ (specs.Dimensions.Width ≤ 0 ∨ specs.Dimensions.Length ≤ 0) := by
      intro h
      rcases h with h | h
      · exact absurd hw (not_lt.mpr h)
      · exact absurd hl (not_lt.mpr h)
    rw [FDungeonRoomDatabase.DoesAssetExistWithSpecs, if_neg hcond, hlook]
    by_cases hf : records.filter (fun a => decide (a.Specs = specs)) = []
    · have hnomatch : ¬ ∃ a, a ∈ records ∧ a.Specs = specs := by
        intro ⟨a, ha, hs⟩
        have : a ∈ records.filter (fun a => decide (a.Specs = specs)) :=
          List.mem_filter.mpr ⟨ha, decide_eq_true hs⟩
        rw [hf] at this
        exact List.not_mem_nil a this
      rw [if_pos hf]
      constructor
      · exact ⟨fun hh => absurd (Except.ok.inj hh) Bool.noConfusion,
          fun hh => absurd hh hnomatch⟩
      · exact ⟨fun _ => hnomatch, fun _ => rfl⟩
    · have hmatch : ∃ a, a ∈ records ∧ a.Specs = specs := by
        obtain ⟨a, ha⟩ := List.exists_mem_of_ne_nil _ hf
        have hm := List.mem_filter.mp ha
        exact ⟨a, hm.1, of_decide_eq_true hm.2⟩
      rw [if_neg hf]
      constructor
      · exact ⟨fun _ => hmatch, fun _ => rfl⟩
      · exact ⟨fun hh => absurd (Except.ok.inj hh) Bool.noConfusion,
          fun hh => absurd hmatch hh⟩

theorem claim_C6_witness :
    ((FDungeonRoomDatabase.mk [(⟨0, 4, 4⟩, ["a"])] [(0, 4)] [(0, 4)]
        ).DoesAssetExistWithSpecs ⟨0, 4, 4⟩ = .ok true ↔
      ∃ a, a ∈ ([⟨⟨0, 4, 4⟩, "a"⟩] : List FRoomAssetRecord) ∧
        a.Specs = (⟨0, 4, 4⟩ : FDungeonRoomSpecs)) ∧
    ((FDungeonRoomDatabase.mk [(⟨0, 4, 4⟩, ["a"])] [(0, 4)] [(0, 4)]
        ).DoesAssetExistWithSpecs ⟨0, 4, 4⟩ = .ok false ↔
      ¬ ∃ a, a ∈ ([⟨⟨0, 4, 4⟩, "a"⟩] : List FRoomAssetRecord) ∧
        a.Specs = (⟨0, 4, 4⟩ : FDungeonRoomSpecs)) :=
  (claim_C6 [⟨⟨0, 4, 4⟩, "a"⟩]
    (FDungeonRoomDatabase.mk [(⟨0, 4, 4⟩, ["a"])] [(0, 4)] [(0, 4)]) ⟨0, 4, 4⟩
    (by decide)).2.2 (by decide) (by decide)

/-- Claim C7: locatorsFor(spec) fails with SpecificationNotFound when no
record matches the specification, and otherwise returns exactly the locators
of the matching records in arrival order, a non-empty sequence. -/
theorem claim_C7 (records : List FRoomAssetRecord) (db : FDungeonRoomDatabase)
    (specs : FDungeonRoomSpecs)
    (hbuild : FDungeonRoomDatabase.InitializeDatabase records = .ok db) :
    (records.filter (fun a => decide (a.Specs = specs)) = [] →
      db.GetAssetPaths specs = .error .SpecificationNotFound) ∧
    (records.filter (fun a => decide (a.Specs = specs)) ≠ [] →
      db.GetAssetPaths specs =
        .ok ((records.filter (fun a => decide (a.Specs = specs))).map
          FRoomAssetRecord.Path) ∧
      (records.filter (fun a => decide (a.Specs = specs))).map
        FRoomAssetRecord.Path ≠ []) := by
  obtain ⟨hdb, -⟩ := InitializeDatabase_ok records db hbuild
  subst hdb
  have hlook : lookupAssoc
      ((records.foldl FDungeonRoomDatabase.AddAssetToDatabase
        FDungeonRoomDatabase.empty).m_PathsByRoomSpecs) specs =
      (if records.filter (fun a => decide (a.Specs = specs)) = [] then none
       else some ((records.filter (fun a => decide (a.Specs = specs))).map
         FRoomAssetRecord.Path)) := by
    rw [foldl_AddAsset_paths, lookup_foldl_paths]
    rfl
  constructor
  · intro hf
    simp only [FDungeonRoomDatabase.GetAssetPaths]
    rw [hlook, if_pos hf]
  · intro hf
    constructor
    · simp only [FDungeonRoomDatabase.GetAssetPaths]
      rw [hlook, if_neg hf]
    · intro hh
      exact hf (List.map_eq_nil_iff.mp hh)

theorem claim_C7_witness :
    (([⟨⟨0, 4, 4⟩, "a"⟩, ⟨⟨0, 6, 4⟩, "b"⟩, ⟨⟨1, 4, 4⟩, "c"⟩] :
        List FRoomAssetRecord).filter
      (fun a => decide (a.Specs = (⟨0, 4, 4⟩ : FDungeonRoomSpecs))) ≠ []) ∧
    (FDungeonRoomDatabase.mk [(⟨0, 4, 4⟩, ["a"]), (⟨0, 6, 4⟩, ["b"]), (⟨1, 4, 4⟩, ["c"])]
        [(0, 6), (1, 4)] [(0, 4), (1, 4)]).GetAssetPaths ⟨0, 4, 4⟩ =
      .ok ((([⟨⟨0, 4, 4⟩, "a"⟩, ⟨⟨0, 6, 4⟩, "b"⟩, ⟨⟨1, 4, 4⟩, "c"⟩] :
          List FRoomAssetRecord).filter
        (fun a => decide (a.Specs = (⟨0, 4, 4⟩ : FDungeonRoomSpecs)))).map
          FRoomAssetRecord.Path) :=
  ⟨by decide,
    ((claim_C7 [⟨⟨0, 4, 4⟩, "a"⟩, ⟨⟨0, 6, 4⟩, "b"⟩, ⟨⟨1, 4, 4⟩, "c"⟩]
      (FDungeonRoomDatabase.mk
        [(⟨0, 4, 4⟩, ["a"]), (⟨0, 6, 4⟩, ["b"]), (⟨1, 4, 4⟩, ["c"])]
        [(0, 6), (1, 4)] [(0, 4), (1, 4)]) ⟨0, 4, 4⟩ (by decide)).2 (by decide)).1⟩

example : (RoomBoundary.create 4 3 [1] [2] 0).IsValidWallLocation ⟨.North, 3⟩ = true := by decide
example : (RoomBoundary.create 4 3 [1] [2] 0).IsValidWallLocation ⟨.East, 3⟩ = false := by decide
example : (RoomBoundary.create 4 3 [1] [2] 0).AddDoor ⟨.North, 0⟩ 0 =
    .ok ((RoomBoundary.create 4 3 [1] [2] 0).SetStaticMesh ⟨.North, 0⟩ 1) := by decide
example : ((RoomBoundary.create 4 3 [1] [2] 0).Spawn
    [(⟨.North, 0⟩, 0), (⟨.South, 2⟩, 0), (⟨.East, 1⟩, 0), (⟨.West, 0⟩, 0)]) =
    .ok ⟨[1], [2], ⟨[1, 0, 0, 0]⟩, ⟨[0, 0, 1, 0]⟩, ⟨[0, 1, 0]⟩, ⟨[1, 0, 0]⟩⟩ := by decide
example : ((allWallLocations (RoomBoundary.create 4 3 [1] [2] 0)).filter
    (fun loc => decide (loc ∉ [FWallLocation.mk .North 0, FWallLocation.mk .South 2,
      FWallLocation.mk .East 1, FWallLocation.mk .West 0]))).length = 10 := by decide
example : FDungeonRoomDatabase.InitializeDatabase
    [⟨⟨0, 4, 4⟩, "a"⟩, ⟨⟨0, 6, 4⟩, "b"⟩, ⟨⟨1, 4, 4⟩, "c"⟩] =
    .ok ⟨[(⟨0, 4, 4⟩, ["a"]), (⟨0, 6, 4⟩, ["b"]), (⟨1, 4, 4⟩, ["c"])],
         [(0, 6), (1, 4)], [(0, 4), (1, 4)]⟩ := by decide
example : (FDungeonRoomDatabase.mk [(⟨0, 4, 4⟩, ["a"])] [(0, 6)] [(0, 4)]).GetMaxWidth 0 =
    .ok 6 := by decide
example : (FDungeonRoomDatabase.mk [(⟨0, 4, 4⟩, ["a"])] [(0, 6)] [(0, 4)]
    ).DoesAssetExistWithSpecs ⟨0, 5, 4⟩ = .ok false := by decide
example : (FDungeonRoomDatabase.mk [(⟨0, 4, 4⟩, ["a"])] [(0, 6)] [(0, 4)]
    ).DoesAssetExistWithSpecs ⟨0, 0, 4⟩ = .error .InvalidSpecification := by decide
